import Mathlib

/-!
Shallow embedding of the authentication and data-synchronization layer of
the Gymnasium22/zamenyVStest school-scheduling app, covering
`src/context/AuthContext.tsx` (role derivation from email, sign-out of
unrecognized identities) and `src/context/DataContext.tsx` (subscription
callback normalization, optimistic `saveData`, linear undo/redo history).

External effects are made explicit: a call to the persistence adapter
`dbService.save` is recorded as an `Option AppData` payload, a thrown
(uncaught) promise rejection as a `Bool`, and a `console.warn` as a `Bool`.
Whether the adapter's save fails is an input parameter of each operation.
-/

namespace ZamenyVS

/-- Shift enum from `src/types.ts` (file not in the sources; only the two
constructors used in `DataContext.tsx` line 62, `Shift.First` and
`Shift.Second`, are needed). -/
inductive Shift where
  | First
  | Second
deriving DecidableEq, Repr

/-- A teacher record as delivered by the document store: `shifts` and
`telegramChatId` may be missing (`none`); `name` stands for the remaining
payload fields that the normalization spread `({..., ...t})` passes through
unchanged. -/
structure RawTeacher where
  name : String
  shifts : Option (List Shift)
  telegramChatId : Option String
deriving DecidableEq, Repr

/-- A normalized teacher record: `shifts` and `telegramChatId` always
present (`DataContext.tsx` line 62 fills the defaults). -/
structure Teacher where
  name : String
  shifts : List Shift
  telegramChatId : String
deriving DecidableEq, Repr

/-- Modelled from the spec: the settings object. Its concrete field list
lives in `src/types.ts`, which is not among the sources; the spec only
calls it "a settings object". Two opaque fields suffice to distinguish a
wholesale replacement from a field-wise deep merge. -/
structure Settings where
  fieldA : Nat
  fieldB : Nat
deriving DecidableEq, Repr

/-- A settings object with possibly missing fields, as the document store
may deliver it; deep-merged with defaults on load (`DataContext.tsx`
line 69). -/
structure PartialSettings where
  fieldA : Option Nat
  fieldB : Option Nat
deriving DecidableEq, Repr

/-- Field-wise merge `{...base, ...p}` of a partial settings object over a
complete one (`DataContext.tsx` line 69). -/
def mergeSettings (base : Settings) (p : PartialSettings) : Settings :=
  { fieldA := p.fieldA.getD base.fieldA
    fieldB := p.fieldB.getD base.fieldB }

/-- The application document (`AppData` in `src/types.ts`): the field list
is read off `DataContext.tsx` (normalization lines 61-69 and the narrowing
contexts lines 180-211); entry shapes other than `Teacher` are opaque to
this layer and modelled as strings. -/
structure AppData where
  subjects : List String
  teachers : List Teacher
  classes : List String
  rooms : List String
  schedule : List String
  substitutions : List String
  bellSchedule : List String
  settings : Settings
deriving DecidableEq, Repr

/-- Modelled from the spec: `DEFAULT_BELLS` from `src/constants.ts` (file
not in the sources) — the default bell-time schedule, a fixed non-empty
container. -/
def DEFAULT_BELLS : List String := ["8:00-8:45", "8:55-9:40"]

/-- Modelled from the spec: `INITIAL_DATA` from `src/constants.ts` (file
not in the sources). Per spec section 3, missing fields are replaced with
"empty containers or defaults on load", so the static default document
carries empty collections and the default bell schedule. -/
def INITIAL_DATA : AppData :=
  { subjects := []
    teachers := []
    classes := []
    rooms := []
    schedule := []
    substitutions := []
    bellSchedule := DEFAULT_BELLS
    settings := { fieldA := 0, fieldB := 0 } }

/-- A document as delivered by the store subscription: every top-level
field may be missing. JavaScript distinguishes an absent key from a key
holding `null`/`undefined`; both are modelled as `none` (with the modelled
`INITIAL_DATA` carrying empty containers, the two code paths — keep the
default versus replace a falsy value with the empty container — agree). -/
structure LoadedDoc where
  subjects : Option (List String)
  teachers : Option (List RawTeacher)
  classes : Option (List String)
  rooms : Option (List String)
  schedule : Option (List String)
  substitutions : Option (List String)
  bellSchedule : Option (List String)
  settings : Option PartialSettings
deriving DecidableEq, Repr

/-- Teacher normalization, `DataContext.tsx` line 62:
`t => ({ shifts: [Shift.First, Shift.Second], telegramChatId: '', ...t })` —
fields present in `t` win, missing ones get the defaults. -/
def normalizeTeacher (t : RawTeacher) : Teacher :=
  { name := t.name
    shifts := t.shifts.getD [Shift.First, Shift.Second]
    telegramChatId := t.telegramChatId.getD "" }

/-- Load-time normalization, `DataContext.tsx` lines 58-69:
`{...INITIAL_DATA, ...loaded}` followed by the per-field fallbacks and the
teacher map. Mapping the defaults-spread over `INITIAL_DATA.teachers`
(already complete records) is the identity and is elided. -/
def fixLoaded (loaded : LoadedDoc) : AppData :=
  { subjects := loaded.subjects.getD INITIAL_DATA.subjects
    teachers := match loaded.teachers with
      | some ts => ts.map normalizeTeacher
      | none => INITIAL_DATA.teachers
    classes := loaded.classes.getD INITIAL_DATA.classes
    rooms := loaded.rooms.getD INITIAL_DATA.rooms
    schedule := loaded.schedule.getD INITIAL_DATA.schedule
    substitutions := loaded.substitutions.getD INITIAL_DATA.substitutions
    bellSchedule := loaded.bellSchedule.getD INITIAL_DATA.bellSchedule
    settings := match loaded.settings with
      | some p => mergeSettings INITIAL_DATA.settings p
      | none => INITIAL_DATA.settings }

/-- Roles, `AuthContext.tsx` line 6 (`null` is modelled as `Option.none`
at use sites). -/
inductive Role where
  | admin
  | teacher
  | guest
deriving DecidableEq, Repr

/-- A signed-in identity; only the email is consulted by this layer
(`firebase.User.email` may be `null`, hence the `Option`). -/
structure AuthUser where
  email : Option String
deriving DecidableEq, Repr

def ADMIN_EMAIL : String := "admin@gymnasium22.com"

def TEACHER_EMAIL : String := "teacher@gymnasium22.com"

/-- The auth provider state held by `AuthProvider`
(`AuthContext.tsx` lines 24-26). -/
structure AuthState where
  user : Option AuthUser
  role : Option Role
  loading : Bool
deriving DecidableEq, Repr

/-- Result of one auth-state notification: the new provider state and how
many times `auth.signOut()` was invoked inside the callback. -/
structure AuthEffect where
  state : AuthState
  signOutCalls : Nat
deriving DecidableEq, Repr

/-- The `onAuthStateChanged` callback, `AuthContext.tsx` lines 35-52:
set the user; an admin-email identity gets role admin, a teacher-email
identity role teacher, any other signed-in identity gets no role and is
signed out server-side; a signed-out notification clears the role; loading
always becomes false. -/
def onAuthStateChanged (currentUser : Option AuthUser) : AuthEffect :=
  match currentUser with
  | some u =>
    if u.email = some ADMIN_EMAIL then
      { state := { user := some u, role := some Role.admin, loading := false }
        signOutCalls := 0 }
    else if u.email = some TEACHER_EMAIL then
      { state := { user := some u, role := some Role.teacher, loading := false }
        signOutCalls := 0 }
    else
      { state := { user := some u, role := none, loading := false }
        signOutCalls := 1 }
  | none =>
    { state := { user := none, role := none, loading := false }
      signOutCalls := 0 }

/-- The local state of `DataProvider` (`DataContext.tsx` lines 21-24):
current document, loading flag, history snapshots and history pointer
(an integer, `-1` when the history is empty). -/
structure DataState where
  data : AppData
  isLoading : Bool
  history : List AppData
  historyPointer : Int
deriving DecidableEq, Repr

/-- The ambient values `saveData`/`undo`/`redo` close over: the auth user,
the derived role, and the optional read-only snapshot the provider may have
been constructed with. -/
structure Env where
  user : Option AuthUser
  role : Option Role
  initialData : Option AppData
deriving DecidableEq, Repr

/-- A partial update as accepted by `saveData` (`Partial<AppData>` is
shallow: a present field carries a complete value). -/
structure PartialAppData where
  subjects : Option (List String)
  teachers : Option (List Teacher)
  classes : Option (List String)
  rooms : Option (List String)
  schedule : Option (List String)
  substitutions : Option (List String)
  bellSchedule : Option (List String)
  settings : Option Settings
deriving DecidableEq, Repr

/-- The top-level shallow merge `{ ...data, ...newData }`
(`DataContext.tsx` line 105). -/
def mergePartial (d : AppData) (p : PartialAppData) : AppData :=
  { subjects := p.subjects.getD d.subjects
    teachers := p.teachers.getD d.teachers
    classes := p.classes.getD d.classes
    rooms := p.rooms.getD d.rooms
    schedule := p.schedule.getD d.schedule
    substitutions := p.substitutions.getD d.substitutions
    bellSchedule := p.bellSchedule.getD d.bellSchedule
    settings := p.settings.getD d.settings }

/-- The history push of `saveData` (`DataContext.tsx` lines 120-122):
truncate forward history at the pointer (`slice(0, historyPointer + 1)`),
append the merged snapshot, and drop the oldest entry (`shift()`) once the
length exceeds 50. -/
def pushHistory (history : List AppData) (ptr : Int) (merged : AppData) :
    List AppData :=
  let nh := history.take (ptr + 1).toNat ++ [merged]
  if nh.length > 50 then nh.tail else nh

/-- Outcome of a `saveData`/`undo`/`redo` call: the new provider state,
the payload handed to `dbService.save` when a persistence call was issued,
whether a `console.warn` fired, and whether the operation's promise
rejected (an uncaught persistence failure). -/
structure OpEffect where
  state : DataState
  saveCalled : Option AppData
  warned : Bool
  threw : Bool
deriving DecidableEq, Repr

/-- `saveData`, `DataContext.tsx` lines 101-126. `isGuest` is
`!user && role === 'guest'`; the merged document is applied to local state
unconditionally; persistence runs only when no read-only snapshot was
given, a user is present, and the caller is not a guest, and its failure is
caught (`try`/`catch`), so the promise never rejects; guests only get a
warning; when `addToHistory` is set the history is truncated, appended and
capped and the pointer moves to the new tail. `saveFails` says whether the
adapter's save would fail if called. -/
def saveData (env : Env) (st : DataState) (newData : PartialAppData)
    (addToHistory : Bool) (saveFails : Bool) : OpEffect :=
  let isGuest := env.user.isNone && env.role = some Role.guest
  let mergedData := mergePartial st.data newData
  let doSave := env.initialData.isNone && env.user.isSome && !isGuest
  let _ := saveFails
  let st1 : DataState :=
    if addToHistory then
      let newHistory := pushHistory st.history st.historyPointer mergedData
      { st with
        data := mergedData
        history := newHistory
        historyPointer := (newHistory.length : Int) - 1 }
    else
      { st with data := mergedData }
  { state := st1
    saveCalled := if doSave then some mergedData else none
    warned := !doSave && isGuest
    threw := false }

/-- `undo`, `DataContext.tsx` lines 128-135: when the pointer is positive,
step it back, apply that snapshot locally, and — with no read-only snapshot
and a user present — persist it with no `try`/`catch`, so a failing save
rejects the promise after the local change was already applied. The
out-of-range read `history[historyPointer - 1]` (impossible under the
pointer invariant) is given the junk default `INITIAL_DATA`. -/
def undo (env : Env) (st : DataState) (saveFails : Bool) : OpEffect :=
  if st.historyPointer > 0 then
    let prevData := st.history.getD (st.historyPointer - 1).toNat INITIAL_DATA
    let doSave := env.initialData.isNone && env.user.isSome
    { state := { st with
        historyPointer := st.historyPointer - 1
        data := prevData }
      saveCalled := if doSave then some prevData else none
      warned := false
      threw := doSave && saveFails }
  else
    { state := st, saveCalled := none, warned := false, threw := false }

/-- `redo`, `DataContext.tsx` lines 137-144: symmetric to `undo`, stepping
the pointer forward while it is below the history tail. -/
def redo (env : Env) (st : DataState) (saveFails : Bool) : OpEffect :=
  if st.historyPointer < (st.history.length : Int) - 1 then
    let nextData := st.history.getD (st.historyPointer + 1).toNat INITIAL_DATA
    let doSave := env.initialData.isNone && env.user.isSome
    { state := { st with
        historyPointer := st.historyPointer + 1
        data := nextData }
      saveCalled := if doSave then some nextData else none
      warned := false
      threw := doSave && saveFails }
  else
    { state := st, saveCalled := none, warned := false, threw := false }

/-- The store-subscription callback, `DataContext.tsx` lines 57-85:
normalize the delivered document, store it as current data, seed the
history only when it is empty (pointer only when it is `-1`), and clear
the loading flag. -/
def subscriptionCallback (loaded : LoadedDoc) (st : DataState) : DataState :=
  let fixedData := fixLoaded loaded
  { data := fixedData
    isLoading := false
    history := if st.history.length = 0 then [fixedData] else st.history
    historyPointer := if st.historyPointer = -1 then 0 else st.historyPointer }

/-- The history/pointer invariant maintained by the provider: at most 50
snapshots, pointer within `[-1, length - 1]`. -/
def HistInv (st : DataState) : Prop :=
  st.history.length ≤ 50 ∧ -1 ≤ st.historyPointer ∧
    st.historyPointer ≤ (st.history.length : Int) - 1

instance (st : DataState) : Decidable (HistInv st) := by
  unfold HistInv; infer_instance

/-! Concrete sample values used by witnesses and counterexamples. -/

/-- A document differing from `INITIAL_DATA` only in its subject list. -/
def mkData (tag : String) : AppData :=
  { INITIAL_DATA with subjects := [tag] }

/-- A signed-in identity whose email matches neither constant. -/
def someUser : AuthUser :=
  { email := some "user@example.com" }

/-- The all-absent partial update. -/
def emptyPartial : PartialAppData :=
  { subjects := none, teachers := none, classes := none, rooms := none
    schedule := none, substitutions := none, bellSchedule := none
    settings := none }

/-- A partial update touching only the subject list. -/
def subjPartial (tag : String) : PartialAppData :=
  { emptyPartial with subjects := some [tag] }

/-- A provider state with the loading flag cleared. -/
def mkState (d : AppData) (h : List AppData) (p : Int) : DataState :=
  { data := d, isLoading := false, history := h, historyPointer := p }

/-- Environment: guest role, nobody signed in, no read-only snapshot. -/
def guestEnv : Env :=
  { user := none, role := some Role.guest, initialData := none }

/-- Environment: guest role while a user is still signed in (reachable via
`setGuestRole` without a preceding sign-out). -/
def userGuestEnv : Env :=
  { user := some someUser, role := some Role.guest, initialData := none }

/-- Environment: nobody signed in, no role, no read-only snapshot. -/
def noAuthEnv : Env :=
  { user := none, role := none, initialData := none }

/-- Environment: an authenticated admin, no read-only snapshot. -/
def adminEnv : Env :=
  { user := some { email := some ADMIN_EMAIL }, role := some Role.admin,
    initialData := none }

/-- The all-absent loaded document. -/
def emptyLoaded : LoadedDoc :=
  { subjects := none, teachers := none, classes := none, rooms := none
    schedule := none, substitutions := none, bellSchedule := none
    settings := none }

/-- A helper: the tail of an append distributes when the left part is
non-empty. -/
theorem tail_append_of_ne_nil {α : Type} (l l' : List α) (h : l ≠ []) :
    (l ++ l').tail = l.tail ++ l' := by
  cases l with
  | nil => exact absurd rfl h
  | cons a t => rfl

/-- The capped history push never exceeds 50 entries and is never empty,
provided the incoming history already respects the cap. -/
theorem pushHistory_length (hist : List AppData) (p : Int) (m : AppData)
    (hl : hist.length ≤ 50) :
    (pushHistory hist p m).length ≤ 50 ∧ 1 ≤ (pushHistory hist p m).length := by
  unfold pushHistory
  dsimp only
  have hk : (hist.take (p + 1).toNat).length ≤ hist.length := by
    rw [List.length_take]; omega
  split_ifs with hgt <;>
    simp only [List.length_tail, List.length_append, List.length_singleton] at hgt ⊢ <;>
    omega

/-- On overflow the capped push drops the oldest retained snapshot before
appending the new one. -/
theorem pushHistory_evict (hist : List AppData) (p : Int) (m : AppData)
    (hgt : (hist.take (p + 1).toNat).length + 1 > 50) :
    pushHistory hist p m = (hist.take (p + 1).toNat).tail ++ [m] := by
  unfold pushHistory
  dsimp only
  rw [if_pos (by simp only [List.length_append, List.length_singleton]; omega)]
  exact tail_append_of_ne_nil _ _ (by
    intro hnil
    rw [hnil] at hgt
    simp at hgt)

/-- The capped push always leaves the new snapshot at the tail. -/
theorem pushHistory_getLast (hist : List AppData) (p : Int) (m : AppData) :
    (pushHistory hist p m).getLast? = some m := by
  unfold pushHistory
  dsimp only
  split_ifs with hgt
  · rw [tail_append_of_ne_nil _ _ (by
      intro hnil
      rw [hnil] at hgt
      simp at hgt)]
    exact List.getLast?_concat _
  · exact List.getLast?_concat _

/-- Claim C1, as stated, is false on the code: `saveData`'s guest test is
`!user && role === 'guest'`, so a caller whose role is guest **while an
authenticated user is present** (reachable: `setGuestRole` sets the role
without signing out) does reach the persistence branch — `dbService.save`
is called. -/
theorem saveData_guest_persists_with_user :
    (saveData userGuestEnv (mkState INITIAL_DATA [INITIAL_DATA] 0)
      (subjPartial "x") true false).saveCalled ≠ none := by
  decide

/-- Claim C1 (amended): for every `saveData` call made while the role is
guest and no authenticated user is present — the code's own guest
precondition — no `dbService.save` call occurs; the write is applied
locally only, with a warning. -/
theorem saveData_guest_no_persist (env : Env) (st : DataState)
    (nd : PartialAppData) (ah f : Bool)
    (hrole : env.role = some Role.guest) (huser : env.user = none) :
    (saveData env st nd ah f).saveCalled = none ∧
    (saveData env st nd ah f).warned = true ∧
    (saveData env st nd ah f).state.data = mergePartial st.data nd := by
  simp [saveData, hrole, huser]
  cases ah <;> simp

/-- Witness for claim C1's amended theorem at a concrete guest state. -/
theorem saveData_guest_no_persist_witness :
    (saveData guestEnv (mkState INITIAL_DATA [INITIAL_DATA] 0)
      (subjPartial "x") true false).saveCalled = none ∧
    (saveData guestEnv (mkState INITIAL_DATA [INITIAL_DATA] 0)
      (subjPartial "x") true false).warned = true ∧
    (saveData guestEnv (mkState INITIAL_DATA [INITIAL_DATA] 0)
      (subjPartial "x") true false).state.data =
      mergePartial INITIAL_DATA (subjPartial "x") :=
  saveData_guest_no_persist guestEnv (mkState INITIAL_DATA [INITIAL_DATA] 0)
    (subjPartial "x") true false rfl rfl

/-- Claim C5: `undo` at pointer 0 leaves the entire state unchanged and
issues no persistence call (and no warning, no rejection); symmetrically
`redo` at pointer `history.length - 1` is a complete no-op. -/
theorem undo_redo_boundary_noop (env env2 : Env) (st st2 : DataState)
    (f f2 : Bool) :
    (st.historyPointer = 0 →
      undo env st f =
        { state := st, saveCalled := none, warned := false, threw := false }) ∧
    (st2.historyPointer = (st2.history.length : Int) - 1 →
      redo env2 st2 f2 =
        { state := st2, saveCalled := none, warned := false, threw := false }) := by
  constructor
  · intro h
    simp [undo, h]
  · intro h
    simp [redo, h]

/-- Witness for claim C5 at a concrete two-snapshot state with the pointer
at 0 (for `undo`) and at the tail (for `redo`). -/
theorem undo_redo_boundary_noop_witness :
    (undo noAuthEnv (mkState (mkData "a") [mkData "a", mkData "b"] 0) false =
      { state := mkState (mkData "a") [mkData "a", mkData "b"] 0
        saveCalled := none
        warned := false
        threw := false }) ∧
    (redo noAuthEnv (mkState (mkData "b") [mkData "a", mkData "b"] 1) false =
      { state := mkState (mkData "b") [mkData "a", mkData "b"] 1
        saveCalled := none
        warned := false
        threw := false }) :=
  ⟨(undo_redo_boundary_noop noAuthEnv noAuthEnv
      (mkState (mkData "a") [mkData "a", mkData "b"] 0)
      (mkState (mkData "b") [mkData "a", mkData "b"] 1)
      false false).1 rfl,
   (undo_redo_boundary_noop noAuthEnv noAuthEnv
      (mkState (mkData "a") [mkData "a", mkData "b"] 0)
      (mkState (mkData "b") [mkData "a", mkData "b"] 1)
      false false).2 (by decide)⟩

/-- Claim C2: a history-recording `saveData` call preserves the history
invariant: afterwards the history holds at most 50 snapshots, the pointer
sits exactly at `history.length - 1` (hence within `[-1, length - 1]`), and
on overflow the oldest retained entry is evicted before the append. The
invariant hypothesis makes the statement inductive over any call
sequence. -/
theorem saveData_history_invariant (env : Env) (st : DataState)
    (nd : PartialAppData) (f : Bool) (h : HistInv st) :
    (saveData env st nd true f).state.history.length ≤ 50 ∧
    (saveData env st nd true f).state.historyPointer =
      ((saveData env st nd true f).state.history.length : Int) - 1 ∧
    HistInv (saveData env st nd true f).state ∧
    ((st.history.take (st.historyPointer + 1).toNat).length + 1 > 50 →
      (saveData env st nd true f).state.history =
        (st.history.take (st.historyPointer + 1).toNat).tail ++
          [mergePartial st.data nd]) := by
  have hstate : (saveData env st nd true f).state.history =
      pushHistory st.history st.historyPointer (mergePartial st.data nd) := rfl
  have hptr : (saveData env st nd true f).state.historyPointer =
      ((pushHistory st.history st.historyPointer
        (mergePartial st.data nd)).length : Int) - 1 := rfl
  have hp := pushHistory_length st.history st.historyPointer
    (mergePartial st.data nd) h.1
  refine ⟨?_, ?_, ⟨?_, ?_, ?_⟩, ?_⟩
  · rw [hstate]; exact hp.1
  · rw [hptr, hstate]
  · rw [hstate]; exact hp.1
  · rw [hptr]
    have h2 := hp.2
    omega
  · rw [hptr, hstate]
  · intro hgt
    rw [hstate]
    exact pushHistory_evict st.history st.historyPointer
      (mergePartial st.data nd) hgt

/-- Witness for claim C2 at a concrete full 50-snapshot history with the
pointer at the tail: the call stays at 50 entries and evicts the oldest. -/
theorem saveData_history_invariant_witness :
    HistInv (mkState (mkData "49")
      ((List.range 50).map (fun i => mkData (toString i))) 49) ∧
    (saveData noAuthEnv (mkState (mkData "49")
      ((List.range 50).map (fun i => mkData (toString i))) 49)
      (subjPartial "new") true false).state.history.length ≤ 50 ∧
    (saveData noAuthEnv (mkState (mkData "49")
      ((List.range 50).map (fun i => mkData (toString i))) 49)
      (subjPartial "new") true false).state.historyPointer =
      ((saveData noAuthEnv (mkState (mkData "49")
        ((List.range 50).map (fun i => mkData (toString i))) 49)
        (subjPartial "new") true false).state.history.length : Int) - 1 ∧
    ((((List.range 50).map (fun i => mkData (toString i))).take
        ((49 : Int) + 1).toNat).length + 1 > 50 →
      (saveData noAuthEnv (mkState (mkData "49")
        ((List.range 50).map (fun i => mkData (toString i))) 49)
        (subjPartial "new") true false).state.history =
        (((List.range 50).map (fun i => mkData (toString i))).take
          ((49 : Int) + 1).toNat).tail ++
          [mergePartial (mkData "49") (subjPartial "new")]) := by
  have h := saveData_history_invariant noAuthEnv
    (mkState (mkData "49") ((List.range 50).map (fun i => mkData (toString i))) 49)
    (subjPartial "new") false (by decide)
  exact ⟨by decide, h.1, h.2.1, h.2.2.2⟩

/-- Claim C3, as stated, is false on the code: `undo` persists with no
`try`/`catch` (`DataContext.tsx` line 133), so a persistence failure
during `undo` rejects the returned promise — the error is not swallowed.
The local optimistic change is applied nevertheless (the second
conjunct). -/
theorem undo_persistence_failure_throws :
    (undo adminEnv (mkState (mkData "b") [mkData "a", mkData "b"] 1)
      true).threw = true ∧
    (undo adminEnv (mkState (mkData "b") [mkData "a", mkData "b"] 1)
      true).state.data = mkData "a" := by
  decide

/-- Claim C3 (amended): a persistence failure during `saveData` is caught
and swallowed (the promise never rejects) and leaves the resulting state —
including the already-applied optimistic data — untouched relative to a
successful save; during `undo` and `redo` the failure is not caught: the
promise rejects exactly when a persistence call was issued, though the
already-applied pointer move and local data change are likewise not rolled
back (state independent of the failure). -/
theorem persistence_failure_handling (env : Env) (st : DataState)
    (nd : PartialAppData) (ah : Bool) :
    (saveData env st nd ah true).threw = false ∧
    (saveData env st nd ah true).state = (saveData env st nd ah false).state ∧
    (saveData env st nd ah true).saveCalled =
      (saveData env st nd ah false).saveCalled ∧
    (undo env st true).threw = (undo env st true).saveCalled.isSome ∧
    (undo env st true).state = (undo env st false).state ∧
    (redo env st true).threw = (redo env st true).saveCalled.isSome ∧
    (redo env st true).state = (redo env st false).state := by
  refine ⟨rfl, rfl, rfl, ?_, ?_, ?_, ?_⟩
  · simp only [undo]
    split_ifs <;> simp_all
  · simp only [undo]
    split_ifs <;> rfl
  · simp only [redo]
    split_ifs <;> simp_all
  · simp only [redo]
    split_ifs <;> rfl

/-- Witness for claim C3's amended theorem at a concrete admin state where
the persistence call is issued and fails. -/
theorem persistence_failure_handling_witness :
    (saveData adminEnv (mkState (mkData "b") [mkData "a", mkData "b"] 1)
      (subjPartial "c") true true).threw = false ∧
    (undo adminEnv (mkState (mkData "b") [mkData "a", mkData "b"] 1)
      true).threw =
      (undo adminEnv (mkState (mkData "b") [mkData "a", mkData "b"] 1)
        true).saveCalled.isSome ∧
    (undo adminEnv (mkState (mkData "b") [mkData "a", mkData "b"] 1)
      true).state =
      (undo adminEnv (mkState (mkData "b") [mkData "a", mkData "b"] 1)
        false).state := by
  have h := persistence_failure_handling adminEnv
    (mkState (mkData "b") [mkData "a", mkData "b"] 1) (subjPartial "c") true
  exact ⟨h.1, h.2.2.2.1, h.2.2.2.2.1⟩

/-- A reachable state in which the current data is not the snapshot at the
history pointer: produced by a `saveData` call with `addToHistory` false
(history untouched, data replaced). -/
def untrackedSaveState : DataState :=
  (saveData noAuthEnv (mkState (mkData "b") [mkData "a", mkData "b"] 1)
    (subjPartial "c") false false).state

/-- Claim C4, as stated, is false on the code: from a reachable state with
pointer 1 whose current data was last written by a `saveData` call with
`addToHistory` false (so the data is not the snapshot at the pointer),
`undo` then `redo` — with no `saveData` in between — yields the pointer
snapshot, not the data held before the `undo`. -/
theorem undo_redo_roundtrip_fails_untracked :
    0 < untrackedSaveState.historyPointer ∧
    (redo noAuthEnv (undo noAuthEnv untrackedSaveState false).state
      false).state.data ≠ untrackedSaveState.data := by
  decide

/-- Claim C4 (amended): from any state with the pointer positive and in
bounds whose current data equals the history snapshot at the pointer — as
holds after any history-recorded operation — `undo` then `redo` (no
intervening `saveData`) restores both the current data and the pointer to
their values before the `undo`. -/
theorem undo_redo_roundtrip (env env2 : Env) (st : DataState) (f f2 : Bool)
    (hp : 0 < st.historyPointer) (hinv : HistInv st)
    (hdata : st.history.get? st.historyPointer.toNat = some st.data) :
    (redo env2 (undo env st f).state f2).state.data = st.data ∧
    (redo env2 (undo env st f).state f2).state.historyPointer =
      st.historyPointer := by
  have hc2 : st.historyPointer - 1 < (st.history.length : Int) - 1 := by
    have := hinv.2.2
    omega
  have hpm : st.historyPointer - 1 + 1 = st.historyPointer := by omega
  have hdata2 : st.history[st.historyPointer.toNat]? = some st.data := by
    simpa [List.get?_eq_getElem?] using hdata
  refine ⟨?_, ?_⟩ <;> simp [undo, redo, hp, hc2, hpm, hdata2]

/-- Witness for claim C4's amended theorem at a concrete tracked state. -/
theorem undo_redo_roundtrip_witness :
    (redo noAuthEnv (undo noAuthEnv
      (mkState (mkData "b") [mkData "a", mkData "b"] 1) false).state
      false).state.data = (mkState (mkData "b") [mkData "a", mkData "b"] 1).data ∧
    (redo noAuthEnv (undo noAuthEnv
      (mkState (mkData "b") [mkData "a", mkData "b"] 1) false).state
      false).state.historyPointer =
      (mkState (mkData "b") [mkData "a", mkData "b"] 1).historyPointer :=
  undo_redo_roundtrip noAuthEnv noAuthEnv
    (mkState (mkData "b") [mkData "a", mkData "b"] 1) false false
    (by decide) (by decide) (by decide)

/-- Claim C6: an auth notification delivering a signed-in identity whose
email matches neither the admin nor the teacher constant leaves the role
absent and invokes `auth.signOut()` exactly once. -/
theorem unrecognized_email_rejected (u : AuthUser)
    (ha : u.email ≠ some ADMIN_EMAIL) (ht : u.email ≠ some TEACHER_EMAIL) :
    (onAuthStateChanged (some u)).state.role = none ∧
    (onAuthStateChanged (some u)).signOutCalls = 1 := by
  simp [onAuthStateChanged, ha, ht]

/-- Witness for claim C6 at a concrete unrecognized identity. -/
theorem unrecognized_email_rejected_witness :
    (onAuthStateChanged (some someUser)).state.role = none ∧
    (onAuthStateChanged (some someUser)).signOutCalls = 1 :=
  unrecognized_email_rejected someUser (by decide) (by decide)

/-- A raw teacher record missing both defaultable fields. -/
def rawT : RawTeacher :=
  { name := "t1", shifts := none, telegramChatId := none }

/-- A loaded document carrying only a teacher list. -/
def teacherLoaded : LoadedDoc :=
  { emptyLoaded with teachers := some [rawT] }

/-- Claim C7: a delivered document missing `teachers`, `schedule`,
`substitutions` or `bellSchedule` is merged to an empty container (the
default bell schedule for `bellSchedule`) for each missing field — never an
absent field, which `AppData`'s total fields enforce by construction — and
every delivered teacher record gets the default shifts and the empty
notification channel identifier for the fields it lacks. -/
theorem fixLoaded_missing_defaults (loaded : LoadedDoc) :
    (loaded.teachers = none → (fixLoaded loaded).teachers = []) ∧
    (loaded.schedule = none → (fixLoaded loaded).schedule = []) ∧
    (loaded.substitutions = none → (fixLoaded loaded).substitutions = []) ∧
    (loaded.bellSchedule = none →
      (fixLoaded loaded).bellSchedule = DEFAULT_BELLS) ∧
    (∀ ts, loaded.teachers = some ts →
      (fixLoaded loaded).teachers = ts.map normalizeTeacher ∧
      ∀ t ∈ ts,
        (t.shifts = none →
          (normalizeTeacher t).shifts = [Shift.First, Shift.Second]) ∧
        (t.telegramChatId = none →
          (normalizeTeacher t).telegramChatId = "")) := by
  refine ⟨?_, ?_, ?_, ?_, ?_⟩
  · intro h
    simp [fixLoaded, h, INITIAL_DATA]
  · intro h
    simp [fixLoaded, h, INITIAL_DATA]
  · intro h
    simp [fixLoaded, h, INITIAL_DATA]
  · intro h
    simp [fixLoaded, h, INITIAL_DATA]
  · intro ts h
    refine ⟨by simp [fixLoaded, h], ?_⟩
    intro t _
    exact ⟨fun hs => by simp [normalizeTeacher, hs],
      fun hc => by simp [normalizeTeacher, hc]⟩

/-- Witness for claim C7 at the all-absent document and at a document with
one bare teacher record. -/
theorem fixLoaded_missing_defaults_witness :
    (fixLoaded emptyLoaded).teachers = [] ∧
    (fixLoaded emptyLoaded).schedule = [] ∧
    (fixLoaded emptyLoaded).substitutions = [] ∧
    (fixLoaded emptyLoaded).bellSchedule = DEFAULT_BELLS ∧
    ((fixLoaded teacherLoaded).teachers = [rawT].map normalizeTeacher ∧
      ∀ t ∈ [rawT],
        (t.shifts = none →
          (normalizeTeacher t).shifts = [Shift.First, Shift.Second]) ∧
        (t.telegramChatId = none →
          (normalizeTeacher t).telegramChatId = "")) := by
  have h1 := fixLoaded_missing_defaults emptyLoaded
  have h2 := fixLoaded_missing_defaults teacherLoaded
  exact ⟨h1.1 rfl, h1.2.1 rfl, h1.2.2.1 rfl, h1.2.2.2.1 rfl,
    h2.2.2.2.2 [rawT] rfl⟩

/-- Claim C8: on a delivered document the subscription callback always
replaces the current data with the normalized merge, but touches the
history and pointer only when the history is currently empty (seeding it
with this first snapshot at pointer 0); with a non-empty history both are
left unchanged. The hypothesis is the evident reachable-state tie between
an empty history and pointer `-1`. -/
theorem subscription_frame (loaded : LoadedDoc) (st : DataState)
    (h : st.history = [] ↔ st.historyPointer = -1) :
    (subscriptionCallback loaded st).data = fixLoaded loaded ∧
    (st.history ≠ [] →
      (subscriptionCallback loaded st).history = st.history ∧
      (subscriptionCallback loaded st).historyPointer = st.historyPointer) ∧
    (st.history = [] →
      (subscriptionCallback loaded st).history = [fixLoaded loaded] ∧
      (subscriptionCallback loaded st).historyPointer = 0) := by
  refine ⟨rfl, ?_, ?_⟩
  · intro hne
    have hpne : st.historyPointer ≠ -1 := fun hpe => hne (h.mpr hpe)
    constructor
    · simp [subscriptionCallback, hne]
    · simp [subscriptionCallback, hpne]
  · intro he
    constructor
    · simp [subscriptionCallback, he]
    · simp [subscriptionCallback, h.mp he]

/-- Witness for claim C8 at an empty and at a non-empty history. -/
theorem subscription_frame_witness :
    ((subscriptionCallback teacherLoaded (mkState INITIAL_DATA [] (-1))).history =
      [fixLoaded teacherLoaded] ∧
      (subscriptionCallback teacherLoaded
        (mkState INITIAL_DATA [] (-1))).historyPointer = 0) ∧
    ((subscriptionCallback teacherLoaded
        (mkState (mkData "b") [mkData "a", mkData "b"] 1)).history =
      (mkState (mkData "b") [mkData "a", mkData "b"] 1).history ∧
      (subscriptionCallback teacherLoaded
        (mkState (mkData "b") [mkData "a", mkData "b"] 1)).historyPointer =
        (mkState (mkData "b") [mkData "a", mkData "b"] 1).historyPointer) :=
  ⟨(subscription_frame teacherLoaded (mkState INITIAL_DATA [] (-1))
      (by decide)).2.2 rfl,
   (subscription_frame teacherLoaded
      (mkState (mkData "b") [mkData "a", mkData "b"] 1)
      (by decide)).2.1 (by decide)⟩

/-- Claim C9: the `saveData` merge is shallow at the top level — a partial
update carrying a settings object makes that object the new current
settings wholesale — while the load-time normalization deep-merges a
delivered settings object field-wise over the defaults. -/
theorem saveData_settings_shallow (env : Env) (st : DataState)
    (nd : PartialAppData) (ah f : Bool) (s : Settings) (loaded : LoadedDoc)
    (st2 : DataState) (p : PartialSettings)
    (hs : nd.settings = some s) (hl : loaded.settings = some p) :
    (saveData env st nd ah f).state.data.settings = s ∧
    (subscriptionCallback loaded st2).data.settings =
      mergeSettings INITIAL_DATA.settings p := by
  constructor
  · have hd : (saveData env st nd ah f).state.data = mergePartial st.data nd := by
      cases ah <;> rfl
    rw [hd]
    simp [mergePartial, hs]
  · simp [subscriptionCallback, fixLoaded, hl]

/-- Witness for claim C9: replacing the settings wholesale forgets the old
`fieldB`, while the load-time deep merge of a settings object carrying only
`fieldA` keeps the default `fieldB`. -/
theorem saveData_settings_shallow_witness :
    (saveData adminEnv (mkState INITIAL_DATA [INITIAL_DATA] 0)
      { emptyPartial with settings := some { fieldA := 7, fieldB := 9 } }
      true false).state.data.settings = { fieldA := 7, fieldB := 9 } ∧
    (subscriptionCallback
      { emptyLoaded with settings := some { fieldA := some 7, fieldB := none } }
      (mkState INITIAL_DATA [INITIAL_DATA] 0)).data.settings =
      mergeSettings INITIAL_DATA.settings
        { fieldA := some 7, fieldB := none } :=
  saveData_settings_shallow adminEnv (mkState INITIAL_DATA [INITIAL_DATA] 0)
    { emptyPartial with settings := some { fieldA := 7, fieldB := 9 } }
    true false { fieldA := 7, fieldB := 9 }
    { emptyLoaded with settings := some { fieldA := some 7, fieldB := none } }
    (mkState INITIAL_DATA [INITIAL_DATA] 0)
    { fieldA := some 7, fieldB := none } rfl rfl

/-- Claim C10: with no authenticated user, `saveData`, `undo` and `redo`
never call the persistence adapter (whatever the role and whether the
adapter would fail), and the local effects still take place: `saveData`
applies the merged document and, when recording history, appends it at the
tail. -/
theorem no_user_no_persist (env : Env) (st : DataState) (nd : PartialAppData)
    (ah f : Bool) (hu : env.user = none) :
    (saveData env st nd ah f).saveCalled = none ∧
    (undo env st f).saveCalled = none ∧
    (undo env st f).threw = false ∧
    (redo env st f).saveCalled = none ∧
    (redo env st f).threw = false ∧
    (saveData env st nd ah f).state.data = mergePartial st.data nd ∧
    (saveData env st nd true f).state.history.getLast? =
      some (mergePartial st.data nd) := by
  have hs : env.user.isSome = false := by simp [hu]
  refine ⟨?_, ?_, ?_, ?_, ?_, ?_, ?_⟩
  · simp [saveData, hs]
  · simp only [undo]
    split_ifs <;> simp_all
  · simp only [undo]
    split_ifs <;> simp_all
  · simp only [redo]
    split_ifs <;> simp_all
  · simp only [redo]
    split_ifs <;> simp_all
  · cases ah <;> rfl
  · exact pushHistory_getLast st.history st.historyPointer
      (mergePartial st.data nd)

/-- Witness for claim C10 at a concrete signed-out state holding the guest
role. -/
theorem no_user_no_persist_witness :
    (saveData guestEnv (mkState (mkData "b") [mkData "a", mkData "b"] 1)
      (subjPartial "c") true false).saveCalled = none ∧
    (undo guestEnv (mkState (mkData "b") [mkData "a", mkData "b"] 1)
      false).saveCalled = none ∧
    (undo guestEnv (mkState (mkData "b") [mkData "a", mkData "b"] 1)
      false).threw = false ∧
    (redo guestEnv (mkState (mkData "b") [mkData "a", mkData "b"] 1)
      false).saveCalled = none ∧
    (redo guestEnv (mkState (mkData "b") [mkData "a", mkData "b"] 1)
      false).threw = false ∧
    (saveData guestEnv (mkState (mkData "b") [mkData "a", mkData "b"] 1)
      (subjPartial "c") true false).state.data =
      mergePartial (mkState (mkData "b") [mkData "a", mkData "b"] 1).data
        (subjPartial "c") ∧
    (saveData guestEnv (mkState (mkData "b") [mkData "a", mkData "b"] 1)
      (subjPartial "c") true false).state.history.getLast? =
      some (mergePartial
        (mkState (mkData "b") [mkData "a", mkData "b"] 1).data
        (subjPartial "c")) :=
  no_user_no_persist guestEnv (mkState (mkData "b") [mkData "a", mkData "b"] 1)
    (subjPartial "c") true false rfl

end ZamenyVS
